import Mathlib

set_option maxRecDepth 1000000

/-!
Shallow embedding of `src/MultichainPaymentGateway.jsx` (CCTP V2 Multichain
Payment Gateway).  JavaScript strings become `String`, JS numbers that hold
integer values become `Option Int` (`none` models `NaN`), fallible JS code
returns `Except JsErr _`, and the injected wallet provider is modelled as an
explicit oracle environment.  The binary64 arithmetic of
`Math.floor(parseFloat(amount) * 1e6)` is modelled exactly with rational
round-to-nearest-even in the normal range.
-/

/-- JavaScript runtime errors relevant to this code base.  The only error the
embedded fragments can raise themselves is a `TypeError` (calling a method
that does not exist on a value, or reading a property of `undefined`). -/
inductive JsErr where
  | typeError
deriving DecidableEq, Repr

instance {ε α : Type _} [DecidableEq ε] [DecidableEq α] : DecidableEq (Except ε α) :=
  fun x y =>
    match x, y with
    | .ok a, .ok b =>
      if h : a = b then .isTrue (by rw [h]) else .isFalse (fun hh => h (Except.ok.inj hh))
    | .error e, .error f =>
      if h : e = f then .isTrue (by rw [h]) else .isFalse (fun hh => h (Except.error.inj hh))
    | .ok _, .error _ => .isFalse (fun hh => Except.noConfusion hh)
    | .error _, .ok _ => .isFalse (fun hh => Except.noConfusion hh)

/-- A dynamically typed JavaScript value as it flows into `padHex`:
either a string or a number (numbers carried exactly as rationals). -/
inductive JsVal where
  | str (s : String)
  | num (q : ℚ)

/-- `String.prototype.padStart(length, '0')`: left-pad with `'0'` up to
`length`; a string already at least that long is returned unchanged. -/
def padStartZeros (s : String) (length : Nat) : String :=
  String.mk (List.replicate (length - s.length) '0') ++ s

/-- Source: `const padHex = (hex, length) => hex.padStart(length, '0')`.
When `hex` is a JS number the property lookup `hex.padStart` yields
`undefined` (numbers have no `padStart` method), so the call raises a
`TypeError`. -/
def padHex (hex : JsVal) (length : Nat) : Except JsErr String :=
  match hex with
  | .str s => .ok (padStartZeros s length)
  | .num _ => .error .typeError

/-- Source: `const addressToBytes32 = (address) =>
'0x000000000000000000000000' + address.slice(2)`. -/
def addressToBytes32 (address : String) : String :=
  "0x000000000000000000000000" ++ address.drop 2

/-- JS `n.toString(16)` for a nonnegative integer: lowercase hex digits,
no leading zeros. -/
def natToHexStr (n : Nat) : String :=
  String.mk (Nat.toDigits 16 n)

/-- JS `x.toString(16)` for a number holding an integer value; `none`
models `NaN`, whose `toString(16)` is the string `"NaN"`. -/
def jsNumToHexStr (x : Option Int) : String :=
  match x with
  | none => "NaN"
  | some n => if n < 0 then "-" ++ natToHexStr n.natAbs else natToHexStr n.toNat

/-- One entry of the `CHAIN_CONFIG` table (UI-only fields omitted). -/
structure ChainCfg where
  name : String
  domain : Nat
  chainIdHex : String
  messageTransmitter : String
  tokenMessenger : String
  usdc : String
  explorer : String
deriving DecidableEq, Repr

/-- The `CHAIN_CONFIG` lookup table keyed by chain id. -/
def CHAIN_CONFIG : Nat → Option ChainCfg := fun chainId =>
  if chainId = 1 then some
    { name := "Ethereum", domain := 0, chainIdHex := "0x1",
      messageTransmitter := "0x0a992d191DEeC32aFe36203Ad87D7d289a738F81",
      tokenMessenger := "0xBd3fa81B58Ba92a82136038B25aDec7066af3155",
      usdc := "0xA0b86991c6218b36c1d19D4a2e9Eb0cE3606eB48",
      explorer := "https://etherscan.io" }
  else if chainId = 42161 then some
    { name := "Arbitrum", domain := 3, chainIdHex := "0xa4b1",
      messageTransmitter := "0xC30362313FBBA5cf9163F0bb16a0e01f01A896ca",
      tokenMessenger := "0x19330d10D9Cc8751218eaf51E8885D058642E08A",
      usdc := "0xaf88d065e77c8cC2239327C5EDb3A432268e5831",
      explorer := "https://arbiscan.io" }
  else if chainId = 8453 then some
    { name := "Base", domain := 6, chainIdHex := "0x2105",
      messageTransmitter := "0x1a58c91AAf06468eB4921Dd7b5B8293F2E20c03b",
      tokenMessenger := "0xd203De32170130082896b4111eDF825a4774c18E",
      usdc := "0x833589fCD6eDb6E08f4c7C32D4f71b54bdA02913",
      explorer := "https://basescan.org" }
  else if chainId = 43114 then some
    { name := "Avalanche", domain := 1, chainIdHex := "0xa86a",
      messageTransmitter := "0x8186359aF5F57FbB40c6b14A588d2A59C0C29880",
      tokenMessenger := "0x6B25532e1060CE10cc3B0A99e5683b91BFDe6982",
      usdc := "0xB97EF9Ef8734C71904D8002F8b6Bc66Dd9c48a6E",
      explorer := "https://snowtrace.io" }
  else if chainId = 59144 then some
    { name := "Linea", domain := 9, chainIdHex := "0xe708",
      messageTransmitter := "0x4D41f22c5a0e5c74090899E5a8Fb597a8842b3e8",
      tokenMessenger := "0xb1141bF80C0B5676c8a6e9f9c8F4dC4c8Fb8f7d0",
      usdc := "0x176211869cA2b568f2A7D4EE941E073a821EE1ff",
      explorer := "https://lineascan.build" }
  else if chainId = 146 then some
    { name := "Sonic", domain := 10, chainIdHex := "0x92",
      messageTransmitter := "0x1234567890abcdef1234567890abcdef12345678",
      tokenMessenger := "0xabcdef1234567890abcdef1234567890abcdef12",
      usdc := "0x29219dD400f2Bf60E5a23d13Be72B486D4038894",
      explorer := "https://sonicscan.io" }
  else none

/-- One entry of the `HOOK_TEMPLATES` table (UI-only fields omitted). -/
structure HookTemplate where
  name : String
  hookData : String
deriving DecidableEq, Repr

/-- The `HOOK_TEMPLATES` lookup table keyed by hook key. -/
def HOOK_TEMPLATES : String → Option HookTemplate := fun key =>
  if key = "autoSwap" then some { name := "Auto Swap to Native Token", hookData := "0x01" }
  else if key = "autoDeposit" then some { name := "Auto Deposit to DeFi", hookData := "0x02" }
  else if key = "autoStake" then some { name := "Auto Stake for Rewards", hookData := "0x03" }
  else if key = "treasuryRebalance" then some { name := "Treasury Auto-Rebalance", hookData := "0x04" }
  else none

/-- The parameter object passed to `encodeFunctionCall`.  JS call sites pass
object literals containing only the fields their branch reads; unused
defaults are never read by the matching branch. -/
structure EncodeParams where
  spender : String := ""
  amount : Option Int := none
  account : String := ""
  destinationDomain : Nat := 0
  mintRecipient : String := ""
  burnToken : String := ""
  destinationCaller : String := ""
  hookData : String := ""
deriving DecidableEq, Repr

/-- The `functionSignatures` table (a `const` local to the source's
`encodeFunctionCall`, lifted out): selector for each registered function. -/
def functionSignatures : String → Option String := fun n =>
  if n = "approve" then some "0x095ea7b3"
  else if n = "balanceOf" then some "0x70a08231"
  else if n = "decimals" then some "0x313ce567"
  else if n = "depositForBurnWithCaller" then some "0x8c7af8a5"
  else if n = "depositForBurnWithHook" then some "0x1f9014c5"
  else none

/-- Source: `encodeFunctionCall(functionName, params)`.  For an unregistered
`functionName` the table lookup yields `undefined`, no branch matches, and
the function returns `undefined` (modelled `.ok none`) without raising.  In
the `depositForBurnWithHook` branch the expression
`padHex((params.hookData.length - 2) / 2, 64)` passes a JS *number* to
`padHex`, whose `hex.padStart` call then raises a `TypeError`. -/
def encodeFunctionCall (functionName : String) (params : EncodeParams) :
    Except JsErr (Option String) :=
  match functionSignatures functionName with
  | none => .ok none
  | some sel =>
    if functionName = "approve" then do
      let a ← padHex (.str (params.spender.drop 2)) 64
      let b ← padHex (.str (jsNumToHexStr params.amount)) 64
      .ok (some (sel ++ a ++ b))
    else if functionName = "balanceOf" then do
      let a ← padHex (.str (params.account.drop 2)) 64
      .ok (some (sel ++ a))
    else if functionName = "depositForBurnWithCaller" then do
      let a ← padHex (.str (jsNumToHexStr params.amount)) 64
      let b ← padHex (.str (natToHexStr params.destinationDomain)) 64
      let c ← padHex (.str (params.burnToken.drop 2)) 64
      .ok (some (sel ++ a ++ b ++ params.mintRecipient.drop 2 ++ c ++
        params.destinationCaller.drop 2))
    else if functionName = "depositForBurnWithHook" then do
      let a ← padHex (.str (jsNumToHexStr params.amount)) 64
      let b ← padHex (.str (natToHexStr params.destinationDomain)) 64
      let c ← padHex (.str (params.burnToken.drop 2)) 64
      let d ← padHex (.str "80") 64
      let e ← padHex (.num (((params.hookData.length : ℚ) - 2) / 2)) 64
      .ok (some (sel ++ a ++ b ++ params.mintRecipient.drop 2 ++ c ++ d ++ e ++
        params.hookData.drop 2))
    else
      .ok (some sel)

/-- Fuelled base-2 logarithm: `log2F fuel n = ⌊log₂ n⌋` whenever `fuel ≥ n`
(and `n ≥ 1`); written with structural recursion so it reduces in the
kernel. -/
def log2F : Nat → Nat → Nat
  | 0, _ => 0
  | fuel + 1, n => if n ≤ 1 then 0 else log2F fuel (n / 2) + 1

/-- `⌊log₂ n⌋` for `n ≥ 1` (`0` at `0`). -/
def natLog2 (n : Nat) : Nat :=
  log2F n n

/-- Whether the rational `n / d` is smaller than `2 ^ e` (with `d > 0`). -/
def ratLt2pow (n d : Nat) (e : Int) : Bool :=
  if 0 ≤ e then n < d * 2 ^ e.toNat else n * 2 ^ (-e).toNat < d

/-- For `n / d > 0`, the integer `e` with `2 ^ e ≤ n / d < 2 ^ (e + 1)`. -/
def floorLog2Rat (n d : Nat) : Int :=
  if ratLt2pow n d ((natLog2 n : Int) - (natLog2 d : Int)) then
    (natLog2 n : Int) - (natLog2 d : Int) - 1
  else
    (natLog2 n : Int) - (natLog2 d : Int)

/-- Round `N / D` (with `D > 0`) to the nearest natural number, ties to
even: `N / D` rounds down when twice the remainder is below `D`, up when
above, and to the even neighbour on a tie. -/
def roundHalfEvenNat (N D : Nat) : Nat :=
  if 2 * (N - N / D * D) < D then N / D
  else if D < 2 * (N - N / D * D) then N / D + 1
  else if N / D % 2 = 0 then N / D else N / D + 1

/-- A nonnegative IEEE binary64 value, as the dyadic rational
`m * 2 ^ (ex - 52)` (`m = 0`, or `2 ^ 52 ≤ m ≤ 2 ^ 53` after rounding). -/
structure F64 where
  m : Nat
  ex : Int
deriving DecidableEq, Repr

/-- Round `(n / d) * 2 ^ (52 - e)` to the nearest integer, ties to even:
the significand of `n / d` once `e = ⌊log₂ (n / d)⌋`. -/
def scaledSig (n d : Nat) (e : Int) : Nat :=
  roundHalfEvenNat (n * 2 ^ (52 - e).toNat) (d * 2 ^ (-(52 - e)).toNat)

/-- Round the rational `n / d` (with `d > 0`) to the nearest binary64 value
(53-bit significand, round to nearest, ties to even).  Valid in the normal
range (magnitudes in `[2 ^ (-1022), 2 ^ 1024)`), which covers every value
arising in this code base; subnormals and overflow are not modelled. -/
def roundF64Rat (n d : Nat) : F64 :=
  { m := scaledSig n d (floorLog2Rat n d), ex := floorLog2Rat n d }

/-- The binary64 value as an exact rational `num / den`. -/
def f64ToPair (x : F64) : Nat × Nat :=
  if 0 ≤ x.ex - 52 then (x.m * 2 ^ (x.ex - 52).toNat, 1)
  else (x.m, 2 ^ (-(x.ex - 52)).toNat)

/-- Binary64 multiplication: the exact product, rounded. -/
def mulF64 (a b : F64) : F64 :=
  roundF64Rat ((f64ToPair a).1 * (f64ToPair b).1) ((f64ToPair a).2 * (f64ToPair b).2)

/-- JS `Math.floor` of a nonnegative binary64 value. -/
def floorF64 (x : F64) : Nat :=
  if 0 ≤ x.ex - 52 then x.m * 2 ^ (x.ex - 52).toNat
  else x.m / 2 ^ (-(x.ex - 52)).toNat

/-- The numeric value of a decimal digit character, `none` otherwise. -/
def digitVal (c : Char) : Option Nat :=
  if 48 ≤ c.toNat ∧ c.toNat ≤ 57 then some (c.toNat - 48) else none

/-- Whether every character is a decimal digit. -/
def allDigits (cs : List Char) : Bool :=
  cs.all (fun c => (digitVal c).isSome)

/-- The natural number denoted by a list of decimal digits. -/
def digitsVal (cs : List Char) : Nat :=
  cs.foldl (fun a c => a * 10 + (digitVal c).getD 0) 0

/-- Split a character list at every `'.'`. -/
def splitOnDot : List Char → List (List Char)
  | [] => [[]]
  | c :: rest =>
    if c = '.' then [] :: splitOnDot rest
    else
      match splitOnDot rest with
      | [] => [[c]]
      | p :: ps => (c :: p) :: ps

/-- Exact value of a decimal literal `digits[.digits]` (the shapes produced
by the amount input field) as a fraction `num / den`; other strings give
`none`, the shapes on which JS `parseFloat` yields `NaN`. -/
def parseDecimalPair (s : String) : Option (Nat × Nat) :=
  match splitOnDot s.data with
  | [ip] => if ip ≠ [] ∧ allDigits ip then some (digitsVal ip, 1) else none
  | [ip, fp] =>
    if (ip ++ fp) ≠ [] ∧ allDigits ip ∧ allDigits fp then
      some (digitsVal ip * 10 ^ fp.length + digitsVal fp, 10 ^ fp.length)
    else none
  | _ => none

/-- JS `parseFloat`: the nearest binary64 value to the decimal literal. -/
def parseFloatJS (s : String) : Option F64 :=
  (parseDecimalPair s).map (fun p => roundF64Rat p.1 p.2)

/-- The binary64 literal `1e6` (exactly representable). -/
def oneE6 : F64 :=
  roundF64Rat 1000000 1

/-- Source (`processPayment`, line 297):
`const amountInUnits = Math.floor(parseFloat(amount) * 1e6)`, computed in
binary64; `none` models `NaN` for unparseable input. -/
def amountToUnits (amount : String) : Option Int :=
  (parseFloatJS amount).map (fun a => (floorF64 (mulF64 a oneE6) : Nat))

/-- The exact conversion the specification describes: the amount multiplied
by `10 ^ 6` with any sub-unit remainder truncated. -/
def exactUnits (amount : String) : Option Int :=
  (parseDecimalPair amount).map (fun p => (p.1 * 1000000 / p.2 : Nat))

/-- The numeric value of a hex digit character, `none` otherwise. -/
def hexDigitVal (c : Char) : Option Nat :=
  if 48 ≤ c.toNat ∧ c.toNat ≤ 57 then some (c.toNat - 48)
  else if 97 ≤ c.toNat ∧ c.toNat ≤ 102 then some (c.toNat - 87)
  else if 65 ≤ c.toNat ∧ c.toNat ≤ 70 then some (c.toNat - 55)
  else none

/-- Whether every character is a hex digit. -/
def allHexDigits (cs : List Char) : Bool :=
  cs.all (fun c => (hexDigitVal c).isSome)

/-- The natural number denoted by a list of hex digits. -/
def hexVal (cs : List Char) : Nat :=
  cs.foldl (fun a c => a * 16 + (hexDigitVal c).getD 0) 0

/-- Source: `parseHexResponse(hex)`: falsy or bare `'0x'` input gives
`'0'`; otherwise `BigInt(hex).toString()`, the decimal rendering of the
`0x`-prefixed hex (or plain decimal) literal.  `none` models the
`SyntaxError` that `BigInt` raises on any other input. -/
def parseHexResponse (hex : String) : Option String :=
  if hex = "" ∨ hex = "0x" then some "0"
  else
    match hex.data with
    | '0' :: 'x' :: rest =>
      if rest ≠ [] ∧ allHexDigits rest then some (Nat.repr (hexVal rest)) else none
    | cs => if cs ≠ [] ∧ allDigits cs then some (Nat.repr (digitsVal cs)) else none

/-- A transaction receipt.  Real receipts carry a `status` field
(`1` mined successfully, `0` mined but reverted); the source only ever
tests a receipt for null-ness and never reads this field. -/
structure Receipt where
  status : Nat
deriving DecidableEq, Repr

/-- One request sent to the injected wallet provider. -/
inductive EthRequest where
  | chainIdQuery
  | switchChain (chainIdHex : String)
  | ethCall (dest : String) (data : Option String)
  | sendTx (sender dest : String) (data : Option String)
  | getReceipt (txRef : String)
deriving DecidableEq, Repr

/-- Oracle environment standing for the injected wallet provider.
`fmt` stands for the binary64 display computation
`(parseFloat(balance) / Math.pow(10, parseInt(decimals))).toFixed(2)` in
`getUSDCBalance`, a float-formatting step no claim depends on; `receiptAt
k i` is the receipt the provider returns for the `k`-th submitted
transaction at the `i`-th poll iteration (`none` = not yet mined). -/
structure PayEnv where
  currentChainIdDec : Nat
  switchResult : Nat → Except Nat Unit
  ethCall : String → Option String → Except Unit String
  fmt : String → String → String
  sendTx : Nat → Except Unit String
  receiptAt : Nat → Nat → Option Receipt

/-- Source: `getUSDCBalance(address, chainId)`.  Every failure inside its
`try` (an undefined chain config, a rejected `eth_call`, a `BigInt` parse
error) is caught and replaced by the default `'0'`.  Returns the value and
the list of provider requests issued. -/
def getUSDCBalanceRun (ethCall : String → Option String → Except Unit String)
    (fmt : String → String → String) (address : String) (chainId : Nat) :
    String × List EthRequest :=
  match CHAIN_CONFIG chainId with
  | none => ("0", [])
  | some config =>
    match encodeFunctionCall "balanceOf" { account := address } with
    | .error _ => ("0", [])
    | .ok balanceData =>
      match ethCall config.usdc balanceData with
      | .error _ => ("0", [.ethCall config.usdc balanceData])
      | .ok balanceResult =>
        match encodeFunctionCall "decimals" {} with
        | .error _ => ("0", [.ethCall config.usdc balanceData])
        | .ok decimalsData =>
          match ethCall config.usdc decimalsData with
          | .error _ => ("0", [.ethCall config.usdc balanceData, .ethCall config.usdc decimalsData])
          | .ok decimalsResult =>
            match parseHexResponse balanceResult, parseHexResponse decimalsResult with
            | some balance, some decimals =>
              (fmt balance decimals,
                [.ethCall config.usdc balanceData, .ethCall config.usdc decimalsData])
            | _, _ => ("0", [.ethCall config.usdc balanceData, .ethCall config.usdc decimalsData])

/-- Source: `switchNetwork(chainId)`.  Its `try/catch` swallows every
failure (alerting on code 4902, logging otherwise) and never rethrows, so
it only ever produces a request trace: an unregistered `chainId` throws on
`CHAIN_CONFIG[chainId].chainIdHex` before any request; a rejected switch
skips the balance refresh. -/
def switchNetworkRun (env : PayEnv) (account : Option String) (chainId : Nat) :
    List EthRequest :=
  match CHAIN_CONFIG chainId with
  | none => []
  | some config =>
    match env.switchResult chainId with
    | .error _ => [.switchChain config.chainIdHex]
    | .ok _ =>
      match account with
      | none => [.switchChain config.chainIdHex]
      | some addr =>
        .switchChain config.chainIdHex :: (getUSDCBalanceRun env.ethCall env.fmt addr chainId).2

/-- Source: `updateBalances(address)`.  Reads the wallet's active chain
(`env.currentChainIdDec` models `fromHex(await eth_chainId)`), queries a
live balance only for that chain when it is registered, and fills every
other registered chain from the previous `balances` map, defaulting to
`'0'` (`balances[chainId] || '0'`).  Returns the new balances map and the
requests issued. -/
def updateBalancesRun (env : PayEnv) (address : String) (balances : Nat → Option String) :
    (Nat → Option String) × List EthRequest :=
  match CHAIN_CONFIG env.currentChainIdDec with
  | some _ =>
    (fun c =>
      if c = env.currentChainIdDec then
        some (getUSDCBalanceRun env.ethCall env.fmt address env.currentChainIdDec).1
      else if (CHAIN_CONFIG c).isSome then some ((balances c).getD "0")
      else none,
      EthRequest.chainIdQuery ::
        (getUSDCBalanceRun env.ethCall env.fmt address env.currentChainIdDec).2)
  | none =>
    (fun c =>
      if c ≠ env.currentChainIdDec ∧ (CHAIN_CONFIG c).isSome then
        some ((balances c).getD "0")
      else none,
      [EthRequest.chainIdQuery])

/-- Source (`processPayment`): `do { sleep(2000); r = getTransactionReceipt }
while (!r)`.  The loop exits at the first poll returning a non-null
receipt; `fuel` bounds how many iterations we unfold — the source itself
has no bound.  Returns the exit iteration and the receipt. -/
def receiptLoop (orac : Nat → Option Receipt) (i : Nat) : Nat → Option (Nat × Receipt)
  | 0 => none
  | fuel + 1 =>
    match orac i with
    | some r => some (i, r)
    | none => receiptLoop orac (i + 1) fuel

/-- The `getTransactionReceipt` requests a loop that exited at iteration
`i` has issued. -/
def pollTrace (txRef : String) (i : Nat) : List EthRequest :=
  List.replicate (i + 1) (EthRequest.getReceipt txRef)

/-- JS truthiness of `selectedHook` (`null` or a string). -/
def jsTruthy (s : Option String) : Bool :=
  match s with
  | none => false
  | some v => v != ""

/-- Source (`processPayment`, lines 332-354): the burn-call payload.
`if (selectedHook && fastTransferEnabled)` selects
`depositForBurnWithHook` with the template's `hookData`
(`HOOK_TEMPLATES[selectedHook].hookData` throws on an unregistered key);
otherwise `depositForBurnWithCaller` with the 32-zero-byte
`destinationCaller`. -/
def mkBurnData (selectedHook : Option String) (fastTransferEnabled : Bool)
    (amountInUnits : Option Int) (destinationDomain : Nat)
    (mintRecipient burnToken : String) : Except JsErr (Option String) :=
  if jsTruthy selectedHook && fastTransferEnabled then
    match selectedHook with
    | some key =>
      match HOOK_TEMPLATES key with
      | some tpl =>
        encodeFunctionCall "depositForBurnWithHook"
          { amount := amountInUnits, destinationDomain := destinationDomain,
            mintRecipient := mintRecipient, burnToken := burnToken,
            hookData := tpl.hookData }
      | none => .error .typeError
    | none => .error .typeError
  else
    encodeFunctionCall "depositForBurnWithCaller"
      { amount := amountInUnits, destinationDomain := destinationDomain,
        mintRecipient := mintRecipient, burnToken := burnToken,
        destinationCaller := addressToBytes32 "0x0000000000000000000000000000000000000000" }

/-- Final status of one `processPayment` run. -/
inductive PayStatus where
  | noWallet
  | success (txHash : String)
  | jsError
deriving DecidableEq, Repr

/-- Source: `processPayment()` (lines 280-411).  Without a connected wallet
it alerts and returns before any chain interaction.  Otherwise, inside one
`try/catch`: switch to the source chain (errors swallowed inside
`switchNetwork`), submit `approve` to the source USDC contract, poll its
receipt on the unbounded 2-second loop, build the burn payload, submit it
to the source token messenger, poll its receipt, and set status
`'success'`.  Any exception escaping the `try` body sets status `'error'`
(`.jsError`).  `fuel` bounds how many poll iterations are unfolded; `none`
means a receipt loop was still polling after `fuel` iterations.  Returns
the provider-request trace and the final status. -/
def processPayment (env : PayEnv) (fuel : Nat) (account : Option String)
    (sourceChain destinationChain : Nat) (amount merchantAddress : String)
    (selectedHook : Option String) (fastTransferEnabled : Bool) :
    Option (List EthRequest × PayStatus) :=
  match account with
  | none => some ([], .noWallet)
  | some acct =>
    match CHAIN_CONFIG sourceChain with
    | none => some (switchNetworkRun env (some acct) sourceChain, .jsError)
    | some sourceConfig =>
      match encodeFunctionCall "approve"
          { spender := sourceConfig.tokenMessenger, amount := amountToUnits amount } with
      | .error _ => some (switchNetworkRun env (some acct) sourceChain, .jsError)
      | .ok approveData =>
        match env.sendTx 0 with
        | .error _ =>
          some (switchNetworkRun env (some acct) sourceChain ++
            [.sendTx acct sourceConfig.usdc approveData], .jsError)
        | .ok approveTx =>
          match receiptLoop (env.receiptAt 0) 0 fuel with
          | none => none
          | some ir =>
            match CHAIN_CONFIG destinationChain with
            | none =>
              some (switchNetworkRun env (some acct) sourceChain ++
                [.sendTx acct sourceConfig.usdc approveData] ++
                pollTrace approveTx ir.1, .jsError)
            | some destinationConfig =>
              match mkBurnData selectedHook fastTransferEnabled (amountToUnits amount)
                  destinationConfig.domain (addressToBytes32 merchantAddress)
                  sourceConfig.usdc with
              | .error _ =>
                some (switchNetworkRun env (some acct) sourceChain ++
                  [.sendTx acct sourceConfig.usdc approveData] ++
                  pollTrace approveTx ir.1, .jsError)
              | .ok burnData =>
                match env.sendTx 1 with
                | .error _ =>
                  some (switchNetworkRun env (some acct) sourceChain ++
                    [.sendTx acct sourceConfig.usdc approveData] ++
                    pollTrace approveTx ir.1 ++
                    [.sendTx acct sourceConfig.tokenMessenger burnData], .jsError)
                | .ok burnTx =>
                  match receiptLoop (env.receiptAt 1) 0 fuel with
                  | none => none
                  | some jr =>
                    some (switchNetworkRun env (some acct) sourceChain ++
                      [.sendTx acct sourceConfig.usdc approveData] ++
                      pollTrace approveTx ir.1 ++
                      [.sendTx acct sourceConfig.tokenMessenger burnData] ++
                      pollTrace burnTx jr.1, .success burnTx)

/-- Final status of a `processPayment` run. -/
def statusOf (r : Option (List EthRequest × PayStatus)) : Option PayStatus :=
  r.map Prod.snd

/-- Provider-request trace of a `processPayment` run. -/
def traceOf (r : Option (List EthRequest × PayStatus)) : List EthRequest :=
  (r.map Prod.fst).getD []

/-- Whether a provider request is a transaction submission to `addr`. -/
def isSendTxTo (addr : String) : EthRequest → Bool := fun r =>
  match r with
  | .sendTx _ dest _ => dest == addr
  | _ => false

/-- A connected wallet account. -/
def acct0 : String := "0xAbCd000000000000000000000000000000001234"

/-- The merchant address prefilled by the UI. -/
def merchant0 : String := "0x742d35Cc6634C0532925a3b844Bc9e7595f8C2B2"

/-- A provider that accepts everything: switches succeed, calls return
`0x0`, submissions return fixed transaction hashes, and every receipt is
available at the first poll with status 1. -/
def benignEnv : PayEnv where
  currentChainIdDec := 1
  switchResult := fun _ => .ok ()
  ethCall := fun _ _ => .ok "0x0"
  fmt := fun _ _ => "0.00"
  sendTx := fun k => .ok (if k = 0 then "0xtxapprove" else "0xtxburn")
  receiptAt := fun _ _ => some { status := 1 }

/-- A provider that never returns a transaction receipt: every
`eth_getTransactionReceipt` poll yields null. -/
def stuckEnv : PayEnv :=
  { benignEnv with receiptAt := fun _ _ => none }

/-- The `depositForBurnWithHook` branch of the encoder always raises: its
length word applies `padHex` to a JS number. -/
theorem encode_hook_raises (p : EncodeParams) :
    encodeFunctionCall "depositForBurnWithHook" p = .error .typeError := rfl

/-- C1: the spec expects `encode('depositForBurnWithHook', ...)` to produce
selector, static words, head pointer `0x80`, a length word and padded
content, and the FAST+hook scenario (Ethereum → Arbitrum, amount 10,
treasuryRebalance) to reach COMPLETE.  The code instead raises a
`TypeError` inside the hook branch (`padHex` applied to the JS number
`(hookData.length - 2) / 2`), so the scenario ends in the error status and
no burn submission to the token messenger ever happens. -/
theorem c1_hook_encoding_type_error :
    encodeFunctionCall "depositForBurnWithHook"
      { amount := some 10000000, destinationDomain := 3,
        mintRecipient := addressToBytes32 merchant0,
        burnToken := "0xA0b86991c6218b36c1d19D4a2e9Eb0cE3606eB48",
        hookData := "0x04" } = .error .typeError
    ∧ statusOf (processPayment benignEnv 3 (some acct0) 1 42161 "10" merchant0
        (some "treasuryRebalance") true) = some .jsError
    ∧ (traceOf (processPayment benignEnv 3 (some acct0) 1 42161 "10" merchant0
        (some "treasuryRebalance") true)).any
        (isSendTxTo "0xBd3fa81B58Ba92a82136038B25aDec7066af3155") = false := by
  refine ⟨rfl, by decide, by decide⟩

/-- C2: the receipt-polling loops have no timeout: a provider whose
`getTransactionReceipt` always returns null keeps the `do / while (!r)`
loop running forever — no number of poll iterations makes `processPayment`
terminate, in FAILED or otherwise. -/
theorem c2_receipt_poll_unbounded :
    (∀ fuel i, receiptLoop (fun _ => none) i fuel = none)
    ∧ (∀ fuel, processPayment stuckEnv fuel (some acct0) 1 42161 "10" merchant0
        none false = none) := by
  have h1 : ∀ fuel i, receiptLoop (fun _ => none) i fuel = none := by
    intro fuel
    induction fuel with
    | zero => intro i; rfl
    | succ n ih => intro i; simpa [receiptLoop] using ih (i + 1)
  refine ⟨h1, ?_⟩
  intro fuel
  have h : receiptLoop (stuckEnv.receiptAt 0) 0 fuel = none := h1 fuel 0
  unfold processPayment
  rw [h]
  rfl

/-- C3 counterexample: with a hook selected and FAST mode on, the claim
says `depositForBurnWithHook` is submitted with the hook's encoded data;
in fact the burn-payload construction raises a `TypeError`, the run ends
in the error status, and no transaction is ever submitted to the token
messenger. -/
theorem c3_hook_fast_no_burn_submitted :
    statusOf (processPayment benignEnv 3 (some acct0) 1 42161 "10" merchant0
      (some "autoSwap") true) = some .jsError
    ∧ mkBurnData (some "autoSwap") true (some 10000000) 3 (addressToBytes32 merchant0)
        "0xA0b86991c6218b36c1d19D4a2e9Eb0cE3606eB48" = .error .typeError
    ∧ (traceOf (processPayment benignEnv 3 (some acct0) 1 42161 "10" merchant0
        (some "autoSwap") true)).any
        (isSendTxTo "0xBd3fa81B58Ba92a82136038B25aDec7066af3155") = false := by
  refine ⟨by decide, rfl, by decide⟩

/-- C3 (amended): the burn-call encoding is selected by the predicate
`(hook present) AND (mode == FAST)`.  Whenever the predicate fails, the
code builds `depositForBurnWithCaller` with the 32-zero-byte
`destinationCaller` and never touches `depositForBurnWithHook`; whenever
it holds, the `depositForBurnWithHook` construction raises a `TypeError`,
so no hook burn payload is ever produced. -/
theorem c3_burn_call_selection (selectedHook : Option String) (fast : Bool)
    (amt : Option Int) (dom : Nat) (recip tok : String) :
    (¬(jsTruthy selectedHook = true ∧ fast = true) →
      mkBurnData selectedHook fast amt dom recip tok =
        encodeFunctionCall "depositForBurnWithCaller"
          { amount := amt, destinationDomain := dom, mintRecipient := recip,
            burnToken := tok,
            destinationCaller :=
              addressToBytes32 "0x0000000000000000000000000000000000000000" })
    ∧ (jsTruthy selectedHook = true → fast = true →
      mkBurnData selectedHook fast amt dom recip tok = .error .typeError) := by
  constructor
  · intro h
    have hcond : (jsTruthy selectedHook && fast) = false := by
      cases hj : jsTruthy selectedHook <;> cases hf : fast <;> simp_all
    simp [mkBurnData, hcond]
  · intro h1 h2
    cases sh : selectedHook with
    | none => rw [sh] at h1; simp [jsTruthy] at h1
    | some key =>
      rw [sh] at h1
      cases hkt : HOOK_TEMPLATES key <;>
        simp [mkBurnData, h1, h2, hkt, encode_hook_raises]

/-- C3 witness: the amended selection evaluated at concrete inputs — the
no-hook STANDARD request yields the `depositForBurnWithCaller` payload,
and the treasuryRebalance FAST request yields the `TypeError`. -/
theorem c3_burn_call_selection_witness :
    mkBurnData none false (some 10000000) 3 (addressToBytes32 merchant0)
      "0xA0b86991c6218b36c1d19D4a2e9Eb0cE3606eB48" =
      encodeFunctionCall "depositForBurnWithCaller"
        { amount := some 10000000, destinationDomain := 3,
          mintRecipient := addressToBytes32 merchant0,
          burnToken := "0xA0b86991c6218b36c1d19D4a2e9Eb0cE3606eB48",
          destinationCaller :=
            addressToBytes32 "0x0000000000000000000000000000000000000000" }
    ∧ mkBurnData (some "treasuryRebalance") true (some 10000000) 3
        (addressToBytes32 merchant0) "0xA0b86991c6218b36c1d19D4a2e9Eb0cE3606eB48" =
      .error .typeError :=
  ⟨(c3_burn_call_selection none false (some 10000000) 3 (addressToBytes32 merchant0)
      "0xA0b86991c6218b36c1d19D4a2e9Eb0cE3606eB48").1 (by decide),
    (c3_burn_call_selection (some "treasuryRebalance") true (some 10000000) 3
      (addressToBytes32 merchant0) "0xA0b86991c6218b36c1d19D4a2e9Eb0cE3606eB48").2
      (by decide) rfl⟩

/-- C4: `processPayment` checks only that a wallet is connected: a
same-chain request, a malformed recipient and a zero amount all proceed to
submit the approval to the source USDC contract (a chain interaction) and
run to the success status — there is no synchronous InvalidRequest
failure anywhere in the model of the code. -/
theorem c4_no_precondition_validation :
    (statusOf (processPayment benignEnv 3 (some acct0) 1 1 "10" merchant0 none false) =
        some (.success "0xtxburn")
      ∧ (traceOf (processPayment benignEnv 3 (some acct0) 1 1 "10" merchant0 none
          false)).any (isSendTxTo "0xA0b86991c6218b36c1d19D4a2e9Eb0cE3606eB48") = true)
    ∧ statusOf (processPayment benignEnv 3 (some acct0) 1 42161 "10" "0xNOTANADDRESS"
        none false) = some (.success "0xtxburn")
    ∧ statusOf (processPayment benignEnv 3 (some acct0) 1 42161 "0" merchant0
        none false) = some (.success "0xtxburn") := by
  refine ⟨⟨by decide, by decide⟩, by decide, by decide⟩

/-- C5 counterexample: `encode('transfer', {})` (an unregistered name)
returns JS `undefined` — a normal return, not an `UnknownFunction` (or
any) error. -/
theorem c5_unknown_name_returns_undefined :
    encodeFunctionCall "transfer" {} = .ok none
    ∧ encodeFunctionCall "transfer" {} ≠ .error .typeError := by
  refine ⟨rfl, by decide⟩

/-- C5 (amended): for every `functionName` outside the five registered
signatures, `encodeFunctionCall` returns `undefined` (no payload) without
raising any error. -/
theorem c5_unknown_name_no_error (name : String) (p : EncodeParams)
    (h1 : name ≠ "approve") (h2 : name ≠ "balanceOf") (h3 : name ≠ "decimals")
    (h4 : name ≠ "depositForBurnWithCaller") (h5 : name ≠ "depositForBurnWithHook") :
    encodeFunctionCall name p = .ok none := by
  simp [encodeFunctionCall, functionSignatures, h1, h2, h3, h4, h5]

/-- C5 witness: the amended statement evaluated at the unregistered name
`transferFrom`. -/
theorem c5_unknown_name_no_error_witness :
    encodeFunctionCall "transferFrom" {} = .ok none :=
  c5_unknown_name_no_error "transferFrom" {} (by decide) (by decide) (by decide)
    (by decide) (by decide)

/-- C6 counterexample: the conversion is binary64 floating point, so exact
truncation fails for some amounts with at most 6 fractional digits:
`Math.floor(parseFloat("0.000249") * 1e6)` is 248, while the exact
truncated product is 249. -/
theorem c6_base_units_not_exact :
    amountToUnits "0.000249" = some 248
    ∧ exactUnits "0.000249" = some 249
    ∧ amountToUnits "0.000249" ≠ exactUnits "0.000249" := by
  refine ⟨by decide, by decide, by decide⟩

/-- C6 (amended): the on-chain amount is
`Math.floor(parseFloat(amount) * 1e6)` computed in binary64: it truncates
rather than rounds — `1.2345678` yields `1234567`, not `1234568` — but for
some amounts with at most 6 fractional digits (such as `0.000249`) the
float result differs by one unit from the exact truncated product. -/
theorem c6_truncation_not_rounding :
    amountToUnits "1.2345678" = some 1234567
    ∧ amountToUnits "1.2345678" ≠ some 1234568
    ∧ amountToUnits "10" = some 10000000 := by
  refine ⟨by decide, by decide, by decide⟩

/-- C7 counterexample: a failed balance query is replaced by the silent
default `'0'` (not reported), and a `wallet_switchEthereumChain` failure
with the unknown-chain code 4902 is swallowed inside `switchNetwork` — the
payment continues to the success status instead of surfacing
ChainNotRegistered. -/
theorem c7_errors_swallowed :
    (getUSDCBalanceRun (fun _ _ => .error ()) (fun _ _ => "9.99") acct0 1).1 = "0"
    ∧ statusOf (processPayment { benignEnv with switchResult := fun _ => .error 4902 } 3
        (some acct0) 1 42161 "10" merchant0 none false) = some (.success "0xtxburn") := by
  refine ⟨rfl, by decide⟩

/-- C7 (amended): `switchNetwork` catches every `wallet_switchEthereumChain`
failure internally (alerting on code 4902) and the payment proceeds
without surfacing it; `getUSDCBalance` replaces any failed balance or
decimals query with the default `'0'`; only errors raised inside
`processPayment`'s own try block — such as a rejected transaction
submission — surface to the caller as the error status. -/
theorem c7_error_propagation (fmt : String → String → String) (addr : String)
    (code : Nat) :
    (getUSDCBalanceRun (fun _ _ => .error ()) fmt addr 1).1 = "0"
    ∧ statusOf (processPayment { benignEnv with switchResult := fun _ => .error code } 3
        (some acct0) 1 42161 "10" merchant0 none false) = some (.success "0xtxburn")
    ∧ statusOf (processPayment { benignEnv with sendTx := fun _ => .error () } 3
        (some acct0) 1 42161 "10" merchant0 none false) = some .jsError := by
  refine ⟨rfl, rfl, by decide⟩

/-- C8: the receipt-polling loops test only that the provider returned a
non-null receipt and never read its `status` field: the whole run —
including the burn submission to the token messenger and the final
`'success'` status — is identical for every approval-receipt status `st`
and burn-receipt status `st'`, in particular for reverted (`status = 0`)
receipts. -/
theorem c8_receipt_status_never_inspected (st st' : Nat) :
    processPayment
        { benignEnv with
          receiptAt := fun k _ => some { status := if k = 0 then st else st' } } 3
        (some acct0) 1 42161 "10" merchant0 none false =
      processPayment benignEnv 3 (some acct0) 1 42161 "10" merchant0 none false
    ∧ statusOf (processPayment benignEnv 3 (some acct0) 1 42161 "10" merchant0
        none false) = some (.success "0xtxburn")
    ∧ (traceOf (processPayment benignEnv 3 (some acct0) 1 42161 "10" merchant0
        none false)).any
        (isSendTxTo "0xBd3fa81B58Ba92a82136038B25aDec7066af3155") = true := by
  refine ⟨rfl, by decide, by decide⟩

/-- Every `eth_call` issued by `getUSDCBalance` targets the USDC contract
of the chain it was asked about. -/
theorem getUSDCBalance_calls_own_usdc (ethCall : String → Option String → Except Unit String)
    (fmt : String → String → String) (addr : String) (chainId : Nat) (cfg : ChainCfg)
    (hcfg : CHAIN_CONFIG chainId = some cfg) :
    ∀ r ∈ (getUSDCBalanceRun ethCall fmt addr chainId).2,
      ∃ d, r = EthRequest.ethCall cfg.usdc d := by
  intro r hr
  unfold getUSDCBalanceRun at hr
  rw [hcfg] at hr
  repeat' split at hr
  all_goals simp_all
  all_goals
    first
    | exact ⟨_, rfl⟩
    | (rcases hr with h | h <;> (subst h; exact ⟨_, rfl⟩))

/-- C9: one balance refresh queries a live balance only for the chain
currently active in the wallet: every other registered chain's entry in
the new balances map is the previously cached value, defaulting to `'0'`
when none was ever cached, and every `eth_call` the refresh issues targets
the active chain's USDC contract. -/
theorem c9_balance_refresh_caching (env : PayEnv) (addr : String)
    (balances : Nat → Option String) :
    (∀ c, (CHAIN_CONFIG c).isSome → c ≠ env.currentChainIdDec →
      (updateBalancesRun env addr balances).1 c = some ((balances c).getD "0"))
    ∧ (∀ dest d, EthRequest.ethCall dest d ∈ (updateBalancesRun env addr balances).2 →
      ∃ cfg, CHAIN_CONFIG env.currentChainIdDec = some cfg ∧ dest = cfg.usdc) := by
  constructor
  · intro c hc hne
    unfold updateBalancesRun
    cases hcur : CHAIN_CONFIG env.currentChainIdDec with
    | some cfg => simp [hne, hc]
    | none => simp [hne, hc]
  · intro dest d hmem
    unfold updateBalancesRun at hmem
    cases hcur : CHAIN_CONFIG env.currentChainIdDec with
    | none => rw [hcur] at hmem; simp at hmem
    | some cfg =>
      rw [hcur] at hmem
      simp at hmem
      rcases getUSDCBalance_calls_own_usdc env.ethCall env.fmt addr
        env.currentChainIdDec cfg hcur _ hmem with ⟨d', hd⟩
      exact ⟨cfg, rfl, (EthRequest.ethCall.inj hd).1⟩

/-- C9 witness: refreshing with Ethereum active and an empty cache leaves
Arbitrum's displayed balance at the default `'0'`. -/
theorem c9_balance_refresh_caching_witness :
    (updateBalancesRun benignEnv acct0 (fun _ => none)).1 42161 = some "0" :=
  (c9_balance_refresh_caching benignEnv acct0 (fun _ => none)).1 42161
    (by decide) (by decide)

/-- C10: the encoder is a pure function — two calls with identical
function name and parameter record yield identical outcomes, successful or
failing alike. -/
theorem c10_encode_deterministic (f f' : String) (p p' : EncodeParams)
    (hf : f = f') (hp : p = p') :
    encodeFunctionCall f p = encodeFunctionCall f' p' := by
  rw [hf, hp]

/-- C10 witness: determinism applied to the approve encoding of the
end-to-end scenario. -/
theorem c10_encode_deterministic_witness :
    encodeFunctionCall "approve"
      { spender := "0xBd3fa81B58Ba92a82136038B25aDec7066af3155", amount := some 10000000 } =
    encodeFunctionCall "approve"
      { spender := "0xBd3fa81B58Ba92a82136038B25aDec7066af3155", amount := some 10000000 } :=
  c10_encode_deterministic "approve" "approve"
    { spender := "0xBd3fa81B58Ba92a82136038B25aDec7066af3155", amount := some 10000000 }
    { spender := "0xBd3fa81B58Ba92a82136038B25aDec7066af3155", amount := some 10000000 }
    rfl rfl
